import Mathlib

/-!
# Verification of the task-manager core (`main_ref2.py`)

Shallow embedding of the task data model, change log, filter engine and
manager of the repository, together with proofs of the specified
properties.

Modelling conventions:
* `datetime` values are microseconds since an (arbitrary) epoch, as `Nat`;
  comparison, subtraction and `timedelta.days` (floor division by the
  microseconds of a day) are therefore exact.
* The wall clock (`datetime.now()`) is passed to each operation as an
  explicit `now : Nat` argument; the several `datetime.now()` calls inside
  one operation are identified.
* The date strings of the wire format are modelled by `DateStr`:
  `strftime` with `"%Y-%m-%d"` keeps only the day (time-of-day truncated),
  `strftime` with `"%Y-%m-%d %H:%M:%S"` keeps whole seconds
  (microseconds truncated), and `strptime` raises `ValueError` on a
  string that is not in the requested format.
* Python exceptions relevant to loading are `PyError`
  (`KeyError` from a missing dict key or a bad enum name,
  `ValueError` from `strptime`); fallible code returns `Except PyError`.
* `**kwargs` of `Task.update` is an ordered list of typed assignments to
  the attributes of `Task`; any other attribute name (for which
  `hasattr` would be `False`) is `FieldAssign.unknownField` and ignored.
* File writes and notifications are effects recorded in the result of a
  manager operation (`OpResult`): `saved` says whether `save_data` ran,
  `notified` holds the message given to `Notification.send`, if any.
-/

namespace TaskMgr

/-- Microseconds per second. -/
def usPerSec : Nat := 1000000

/-- Microseconds per day. -/
def usPerDay : Nat := 86400000000

/-- The Python exceptions that the loading code can raise. -/
inductive PyError
  | keyError
  | valueError
deriving DecidableEq, Repr

/-- A Python string standing in a date position of the wire format:
either a well-formed `"%Y-%m-%d"` string (carrying its day number), a
well-formed `"%Y-%m-%d %H:%M:%S"` string (carrying its seconds), or any
other string. -/
inductive DateStr
  | dmy (day : Nat)
  | full (sec : Nat)
  | other (s : String)
deriving DecidableEq, Repr

/-- `strftime("%Y-%m-%d")`: prints the calendar date of a datetime,
losing the time of day. -/
def fmtDate (us : Nat) : DateStr := DateStr.dmy (us / usPerDay)

/-- `strftime("%Y-%m-%d %H:%M:%S")`: prints a datetime to whole seconds,
losing the microseconds. -/
def fmtDateTime (us : Nat) : DateStr := DateStr.full (us / usPerSec)

/-- `datetime.strptime(s, "%Y-%m-%d")`: parses a date-only string to the
midnight of that day; any other string raises `ValueError`. -/
def strptimeDate : DateStr → Except PyError Nat
  | DateStr.dmy d => Except.ok (d * usPerDay)
  | _ => Except.error PyError.valueError

/-- `datetime.strptime(s, "%Y-%m-%d %H:%M:%S")`: parses a full
date-time string to that whole second; any other string raises
`ValueError`. -/
def strptimeDateTime : DateStr → Except PyError Nat
  | DateStr.full s => Except.ok (s * usPerSec)
  | _ => Except.error PyError.valueError

/-- Python truthiness of `data.get(key)` for an optional string field:
a missing key or JSON `null` gives `None` (here `none`) and the empty
string is falsy as well. -/
def truthy : Option DateStr → Option DateStr
  | none => none
  | some (DateStr.other s) => if s.isEmpty then none else some (DateStr.other s)
  | some d => some d

/-- `class Priority(Enum)`. -/
inductive Priority
  | LOW
  | MEDIUM
  | HIGH
  | CRITICAL
deriving DecidableEq, Repr

/-- `Priority.name`. -/
def Priority.name : Priority → String
  | Priority.LOW => "LOW"
  | Priority.MEDIUM => "MEDIUM"
  | Priority.HIGH => "HIGH"
  | Priority.CRITICAL => "CRITICAL"

/-- `Priority[s]`: lookup by member name; an unknown name raises
`KeyError`, rendered as `none`. -/
def Priority.fromName : String → Option Priority
  | "LOW" => some Priority.LOW
  | "MEDIUM" => some Priority.MEDIUM
  | "HIGH" => some Priority.HIGH
  | "CRITICAL" => some Priority.CRITICAL
  | _ => none

/-- `class TaskStatus(Enum)`. -/
inductive TaskStatus
  | PENDING
  | COMPLETED
  | ARCHIVED
  | DELETED
deriving DecidableEq, Repr

/-- `TaskStatus.name`. -/
def TaskStatus.name : TaskStatus → String
  | TaskStatus.PENDING => "PENDING"
  | TaskStatus.COMPLETED => "COMPLETED"
  | TaskStatus.ARCHIVED => "ARCHIVED"
  | TaskStatus.DELETED => "DELETED"

/-- `TaskStatus[s]`: lookup by member name; an unknown name raises
`KeyError`, rendered as `none`. -/
def TaskStatus.fromName : String → Option TaskStatus
  | "PENDING" => some TaskStatus.PENDING
  | "COMPLETED" => some TaskStatus.COMPLETED
  | "ARCHIVED" => some TaskStatus.ARCHIVED
  | "DELETED" => some TaskStatus.DELETED
  | _ => none

/-- The attributes of `class Task`. -/
structure Task where
  title : String
  description : String
  due_date : Option Nat
  priority : Priority
  category : String
  status : TaskStatus
  created_at : Nat
  updated_at : Nat
  completed_at : Option Nat
deriving DecidableEq, Repr

/-- `Task.__init__`: status starts `PENDING`, `completed_at` starts
`None`, and both timestamps are set to the current time `now`. -/
def Task.init (title : String) (description : String) (due_date : Option Nat)
    (priority : Priority) (category : String) (now : Nat) : Task :=
  { title := title
    description := description
    due_date := due_date
    priority := priority
    category := category
    status := TaskStatus.PENDING
    created_at := now
    updated_at := now
    completed_at := none }

/-- One keyword argument of `Task.update`: an assignment to a known
attribute of `Task`, or any other name, for which `hasattr` is `False`
and which is silently ignored. -/
inductive FieldAssign
  | title (v : String)
  | description (v : String)
  | due_date (v : Option Nat)
  | priority (v : Priority)
  | category (v : String)
  | status (v : TaskStatus)
  | created_at (v : Nat)
  | updated_at (v : Nat)
  | completed_at (v : Option Nat)
  | unknownField (name : String)
deriving DecidableEq, Repr

/-- `setattr(self, key, value) if hasattr(self, key)` for one keyword
argument. -/
def Task.setattr (t : Task) : FieldAssign → Task
  | FieldAssign.title v => { t with title := v }
  | FieldAssign.description v => { t with description := v }
  | FieldAssign.due_date v => { t with due_date := v }
  | FieldAssign.priority v => { t with priority := v }
  | FieldAssign.category v => { t with category := v }
  | FieldAssign.status v => { t with status := v }
  | FieldAssign.created_at v => { t with created_at := v }
  | FieldAssign.updated_at v => { t with updated_at := v }
  | FieldAssign.completed_at v => { t with completed_at := v }
  | FieldAssign.unknownField _ => t

/-- `Task.update(**kwargs)`: apply each keyword argument in order to the
matching attribute, then refresh `updated_at` to the current time. -/
def Task.update (t : Task) (kwargs : List FieldAssign) (now : Nat) : Task :=
  let t := kwargs.foldl Task.setattr t
  { t with updated_at := now }

/-- `Task.mark_as_completed`. -/
def Task.mark_as_completed (t : Task) (now : Nat) : Task :=
  { t with status := TaskStatus.COMPLETED, completed_at := some now, updated_at := now }

/-- `Task.archive`. -/
def Task.archive (t : Task) (now : Nat) : Task :=
  { t with status := TaskStatus.ARCHIVED, updated_at := now }

/-- `Task.is_overdue`. -/
def Task.is_overdue (t : Task) (now : Nat) : Bool :=
  match t.due_date with
  | none => false
  | some d => decide (d < now) && decide (t.status ≠ TaskStatus.COMPLETED)

/-- `Task.days_until_due`: `(self.due_date - datetime.now()).days`,
i.e. the floor of the difference in days, or `None` without a due date. -/
def Task.days_until_due (t : Task) (now : Nat) : Option Int :=
  t.due_date.map (fun d => Int.fdiv ((d : Int) - (now : Int)) (usPerDay : Int))

/-- The flat dict serialisation of a task (§6 task record).  A missing
key and a JSON `null` are both `none`. -/
structure RawTask where
  title : Option String
  description : Option String
  due_date : Option DateStr
  priority : Option String
  category : Option String
  status : Option String
  created_at : Option DateStr
  updated_at : Option DateStr
  completed_at : Option DateStr
deriving DecidableEq, Repr

/-- `Task.to_dict`. -/
def Task.to_dict (t : Task) : RawTask :=
  { title := some t.title
    description := some t.description
    due_date := t.due_date.map fmtDate
    priority := some t.priority.name
    category := some t.category
    status := some t.status.name
    created_at := some (fmtDateTime t.created_at)
    updated_at := some (fmtDateTime t.updated_at)
    completed_at := t.completed_at.map fmtDateTime }

/-- `Task.from_dict`: `data[k]` on a missing key raises `KeyError`,
`data.get(k, default)` substitutes the default, enum lookup by an
unknown name raises `KeyError`, `strptime` of a bad string raises
`ValueError`. -/
def Task.from_dict (data : RawTask) : Except PyError Task := do
  let title ← match data.title with
    | none => Except.error PyError.keyError
    | some s => Except.ok s
  let description := data.description.getD ""
  let due_date ← match truthy data.due_date with
    | none => Except.ok (none : Option Nat)
    | some ds => (strptimeDate ds).map some
  let priority ← match Priority.fromName (data.priority.getD "MEDIUM") with
    | none => Except.error PyError.keyError
    | some p => Except.ok p
  let category := data.category.getD "General"
  let status ← match TaskStatus.fromName (data.status.getD "PENDING") with
    | none => Except.error PyError.keyError
    | some s => Except.ok s
  let created_at ← match data.created_at with
    | none => Except.error PyError.keyError
    | some ds => strptimeDateTime ds
  let updated_at ← match data.updated_at with
    | none => Except.error PyError.keyError
    | some ds => strptimeDateTime ds
  let completed_at ← match truthy data.completed_at with
    | none => Except.ok (none : Option Nat)
    | some ds => (strptimeDateTime ds).map some
  Except.ok
    { title := title
      description := description
      due_date := due_date
      priority := priority
      category := category
      status := status
      created_at := created_at
      updated_at := updated_at
      completed_at := completed_at }

/-- The `task_data` of a changelog entry: a full snapshot, or the
`{old, new}` pair recorded by `update_task`. -/
inductive ChangeData
  | snapshot (data : RawTask)
  | pair (old new : RawTask)
deriving DecidableEq, Repr

/-- One entry of the change log. -/
structure ChangeEntry where
  action : String
  task_data : ChangeData
  timestamp : Nat
deriving DecidableEq, Repr

/-- `class ChangeLog`. -/
structure ChangeLog where
  changes : List ChangeEntry
deriving DecidableEq, Repr

/-- `ChangeLog.add_change`: appends an entry; a `None` timestamp is
replaced by the current time (`timestamp or datetime.now()`). -/
def ChangeLog.add_change (log : ChangeLog) (action : String) (task_data : ChangeData)
    (timestamp : Option Nat) (now : Nat) : ChangeLog :=
  { changes := log.changes ++
      [{ action := action, task_data := task_data, timestamp := timestamp.getD now }] }

/-- `ChangeLog.get_changes_since`: the entries whose timestamp is at
least `since`, in insertion order. -/
def ChangeLog.get_changes_since (log : ChangeLog) (since : Nat) : List ChangeEntry :=
  log.changes.filter (fun change => decide (since ≤ change.timestamp))

/-- One serialised changelog entry as found in the storage file.  A
missing key is `none`; the `task_data` value is stored back verbatim,
so it is kept in parsed form here. -/
structure RawEntry where
  action : Option String
  task_data : Option ChangeData
  timestamp : Option DateStr
deriving DecidableEq, Repr

/-- A Python list comprehension over fallible element parses: elements
are produced left to right and the first exception aborts the whole
comprehension. -/
def mapMExcept {α β : Type} (f : α → Except PyError β) : List α → Except PyError (List β)
  | [] => Except.ok []
  | a :: rest => do
    let b ← f a
    let bs ← mapMExcept f rest
    Except.ok (b :: bs)

/-- Parse one serialised changelog entry; a missing key raises
`KeyError`, a bad timestamp string raises `ValueError`. -/
def ChangeEntry.parse_entry (entry : RawEntry) : Except PyError ChangeEntry := do
  let action ← match entry.action with
    | none => Except.error PyError.keyError
    | some a => Except.ok a
  let task_data ← match entry.task_data with
    | none => Except.error PyError.keyError
    | some d => Except.ok d
  let timestamp ← match entry.timestamp with
    | none => Except.error PyError.keyError
    | some ds => strptimeDateTime ds
  Except.ok { action := action, task_data := task_data, timestamp := timestamp }

/-- `ChangeLog.from_dict`: rebuild the entries in order. -/
def ChangeLog.from_dict (data : List RawEntry) : Except PyError ChangeLog := do
  let changes ← mapMExcept ChangeEntry.parse_entry data
  Except.ok { changes := changes }

/-- `class TaskFilter`: a record of optional predicates
(`overdue_only` is a plain boolean defaulting to `False`). -/
structure TaskFilter where
  status : Option TaskStatus
  priority : Option Priority
  category : Option String
  overdue_only : Bool
  due_in_days : Option Int
deriving DecidableEq, Repr

/-- `TaskFilter.apply`: the five successive list comprehensions of the
source, each narrowing `filtered` when its predicate is set. -/
def TaskFilter.apply (f : TaskFilter) (tasks : List Task) (now : Nat) : List Task :=
  let filtered := tasks
  let filtered := match f.status with
    | none => filtered
    | some s => filtered.filter (fun t => decide (t.status = s))
  let filtered := match f.priority with
    | none => filtered
    | some p => filtered.filter (fun t => decide (t.priority = p))
  let filtered := match f.category with
    | none => filtered
    | some c => filtered.filter (fun t => decide (t.category = c))
  let filtered := if f.overdue_only then filtered.filter (fun t => t.is_overdue now) else filtered
  let filtered := match f.due_in_days with
    | none => filtered
    | some n => filtered.filter (fun t =>
        match t.days_until_due now with
        | none => false
        | some d => decide (0 ≤ d) && decide (d ≤ n))
  filtered

/-- The spec's description of one task passing a filter: the
conjunction of all predicates that are set, unset predicates imposing
no constraint, `due_in_days = N` selecting a present due date with
`0 ≤ days_until_due ≤ N`.  Stated from the spec's words, to be compared
with `TaskFilter.apply`. -/
def TaskFilter.matchesSpec (f : TaskFilter) (t : Task) (now : Nat) : Bool :=
  ((((match f.status with
      | none => true
      | some s => decide (t.status = s)) &&
     (match f.priority with
      | none => true
      | some p => decide (t.priority = p))) &&
    (match f.category with
     | none => true
     | some c => decide (t.category = c))) &&
   (!f.overdue_only || t.is_overdue now)) &&
  (match f.due_in_days with
   | none => true
   | some n => match t.days_until_due now with
     | none => false
     | some d => decide (0 ≤ d) && decide (d ≤ n))

/-- The state owned by `class TaskManager`: the task sequence and the
change log.  The notification sink is not state; the message it is sent
is recorded in each operation's `OpResult`. -/
structure TaskManager where
  tasks : List Task
  changelog : ChangeLog
deriving DecidableEq, Repr

/-- The outcome of one manager operation: the new state, whether
`save_data` rewrote storage, the message sent to the notification sink
(if any), and the returned value. -/
structure OpResult (α : Type) where
  manager : TaskManager
  saved : Bool
  notified : Option String
  result : α
deriving DecidableEq, Repr

/-- `TaskManager.add_task`. -/
def TaskManager.add_task (m : TaskManager) (task : Task) (now : Nat) : OpResult Task :=
  { manager :=
      { tasks := m.tasks ++ [task]
        changelog := m.changelog.add_change "CREATE" (ChangeData.snapshot task.to_dict) none now }
    saved := true
    notified := some ("Task added: " ++ task.title)
    result := task }

/-- `TaskManager.update_task`: bounds-checks the id, records the
`{old, new}` snapshot pair, persists and notifies; out of range it
returns `None` and does nothing. -/
def TaskManager.update_task (m : TaskManager) (task_id : Int) (kwargs : List FieldAssign)
    (now : Nat) : OpResult (Option Task) :=
  if h : 0 ≤ task_id ∧ task_id < (m.tasks.length : Int) then
    let task := m.tasks.get ⟨task_id.toNat, by omega⟩
    let old_data := task.to_dict
    let task2 := task.update kwargs now
    { manager :=
        { tasks := m.tasks.set task_id.toNat task2
          changelog := m.changelog.add_change "UPDATE" (ChangeData.pair old_data task2.to_dict) none now }
      saved := true
      notified := some ("Task updated: " ++ task2.title)
      result := some task2 }
  else
    { manager := m, saved := false, notified := none, result := none }

/-- `TaskManager.delete_task`: sets the status attribute to `DELETED`
directly (not through a `Task` method, so `updated_at` is untouched),
logs, persists, notifies. -/
def TaskManager.delete_task (m : TaskManager) (task_id : Int) (now : Nat) : OpResult Bool :=
  if h : 0 ≤ task_id ∧ task_id < (m.tasks.length : Int) then
    let task := m.tasks.get ⟨task_id.toNat, by omega⟩
    let task2 := { task with status := TaskStatus.DELETED }
    { manager :=
        { tasks := m.tasks.set task_id.toNat task2
          changelog := m.changelog.add_change "DELETE" (ChangeData.snapshot task2.to_dict) none now }
      saved := true
      notified := some ("Task deleted: " ++ task2.title)
      result := true }
  else
    { manager := m, saved := false, notified := none, result := false }

/-- `TaskManager.complete_task`. -/
def TaskManager.complete_task (m : TaskManager) (task_id : Int) (now : Nat) : OpResult (Option Task) :=
  if h : 0 ≤ task_id ∧ task_id < (m.tasks.length : Int) then
    let task := m.tasks.get ⟨task_id.toNat, by omega⟩
    let task2 := task.mark_as_completed now
    { manager :=
        { tasks := m.tasks.set task_id.toNat task2
          changelog := m.changelog.add_change "COMPLETE" (ChangeData.snapshot task2.to_dict) none now }
      saved := true
      notified := some ("Task completed: " ++ task2.title)
      result := some task2 }
  else
    { manager := m, saved := false, notified := none, result := none }

/-- `TaskManager.archive_task`: logs and persists like the other
mutating operations but sends no notification. -/
def TaskManager.archive_task (m : TaskManager) (task_id : Int) (now : Nat) : OpResult (Option Task) :=
  if h : 0 ≤ task_id ∧ task_id < (m.tasks.length : Int) then
    let task := m.tasks.get ⟨task_id.toNat, by omega⟩
    let task2 := task.archive now
    { manager :=
        { tasks := m.tasks.set task_id.toNat task2
          changelog := m.changelog.add_change "ARCHIVE" (ChangeData.snapshot task2.to_dict) none now }
      saved := true
      notified := none
      result := some task2 }
  else
    { manager := m, saved := false, notified := none, result := none }

/-- `TaskManager.get_task`: bounds-checked lookup, no side effects. -/
def TaskManager.get_task (m : TaskManager) (task_id : Int) : Option Task :=
  if h : 0 ≤ task_id ∧ task_id < (m.tasks.length : Int) then
    some (m.tasks.get ⟨task_id.toNat, by omega⟩)
  else
    none

/-- `TaskManager.filter_tasks`. -/
def TaskManager.filter_tasks (m : TaskManager) (task_filter : TaskFilter) (now : Nat) : List Task :=
  task_filter.apply m.tasks now

/-- `TaskManager.get_upcoming_tasks`. -/
def TaskManager.get_upcoming_tasks (m : TaskManager) (days : Int) (now : Nat) : List Task :=
  m.filter_tasks
    { status := some TaskStatus.PENDING
      priority := none
      category := none
      overdue_only := false
      due_in_days := some days } now

/-- `TaskManager.get_overdue_tasks`. -/
def TaskManager.get_overdue_tasks (m : TaskManager) (now : Nat) : List Task :=
  m.filter_tasks
    { status := some TaskStatus.PENDING
      priority := none
      category := none
      overdue_only := true
      due_in_days := none } now

/-- The storage file as `load_data` can encounter it: absent, present
but not parseable as JSON (`json.JSONDecodeError`), or a parsed JSON
document with its optional `tasks` and `changelog` top-level keys. -/
inductive FileState
  | absent
  | malformedJson
  | doc (tasks : Option (List RawTask)) (changelog : Option (List RawEntry))
deriving DecidableEq, Repr

/-- The body of the `try` block of `load_data`: parse the `tasks`
section, then the `changelog` section, a missing top-level key
defaulting to the empty list (`data.get(..., [])`). -/
def TaskManager.load_parse (tasksData : Option (List RawTask))
    (changelogData : Option (List RawEntry)) : Except PyError (List Task × ChangeLog) := do
  let tasks ← mapMExcept Task.from_dict (tasksData.getD [])
  let changelog ← ChangeLog.from_dict (changelogData.getD [])
  Except.ok (tasks, changelog)

/-- `TaskManager.load_data`: an absent file yields the empty state with
no diagnostic; `json.JSONDecodeError` and `KeyError` are caught,
printing a diagnostic (the returned flag) and resetting to the empty
state; any other exception — in particular `ValueError` from a bad
date string — escapes. -/
def TaskManager.load_data (file : FileState) : Except PyError (TaskManager × Bool) :=
  match file with
  | FileState.absent => Except.ok ({ tasks := [], changelog := { changes := [] } }, false)
  | FileState.malformedJson => Except.ok ({ tasks := [], changelog := { changes := [] } }, true)
  | FileState.doc tasksData changelogData =>
    match TaskManager.load_parse tasksData changelogData with
    | Except.ok (tasks, changelog) =>
        Except.ok ({ tasks := tasks, changelog := changelog }, false)
    | Except.error PyError.keyError =>
        Except.ok ({ tasks := [], changelog := { changes := [] } }, true)
    | Except.error PyError.valueError => Except.error PyError.valueError

/-- Is this keyword argument one that names no attribute of `Task`
(so that `hasattr` is `False` and `update` ignores it)? -/
def FieldAssign.isUnknown : FieldAssign → Bool
  | FieldAssign.unknownField _ => true
  | _ => false

/-- Is this keyword argument an assignment to `created_at`? -/
def FieldAssign.isCreatedAt : FieldAssign → Bool
  | FieldAssign.created_at _ => true
  | _ => false

/-- The mutations a task can undergo after construction: `Task.update`
with arbitrary keyword arguments, `Task.mark_as_completed`,
`Task.archive`, and the direct status write performed by
`TaskManager.delete_task`. -/
inductive TaskOp
  | update (kwargs : List FieldAssign)
  | mark_as_completed
  | archive
  | managerDelete
deriving DecidableEq, Repr

/-- Apply one mutation at its wall-clock time. -/
def Task.applyOp (t : Task) : TaskOp × Nat → Task
  | (TaskOp.update kwargs, now) => t.update kwargs now
  | (TaskOp.mark_as_completed, now) => t.mark_as_completed now
  | (TaskOp.archive, now) => t.archive now
  | (TaskOp.managerDelete, _) => { t with status := TaskStatus.DELETED }

/-- Apply a sequence of timed mutations in order. -/
def Task.applyOps (t : Task) (ops : List (TaskOp × Nat)) : Task :=
  ops.foldl Task.applyOp t

/-- Does this operation avoid assigning the `created_at` attribute? -/
def TaskOp.noCreatedAtAssign : TaskOp → Bool
  | TaskOp.update kwargs => kwargs.all (fun a => !a.isCreatedAt)
  | _ => true

/-- A task as freshly constructed at time 0. -/
def rtTask : Task := Task.init "r" "" none Priority.MEDIUM "General" 0

/-- A task whose timestamps are whole seconds and whose due date is a
day boundary, with non-null `due_date` and `completed_at`. -/
def rtTask2 : Task :=
  { title := "b"
    description := "d"
    due_date := some (2 * usPerDay)
    priority := Priority.HIGH
    category := "Work"
    status := TaskStatus.COMPLETED
    created_at := 3 * usPerSec
    updated_at := 4 * usPerSec
    completed_at := some (5 * usPerSec) }

/-- A task whose due date carries a time-of-day component (1:00:00). -/
def oddDueTask : Task := Task.init "a" "" (some 3600000000) Priority.MEDIUM "General" 0

/-- A stored task record whose `created_at` is not a well-formed
date-time string. -/
def badRawTask : RawTask :=
  { title := some "t"
    description := none
    due_date := none
    priority := none
    category := none
    status := none
    created_at := some (DateStr.other "not-a-date")
    updated_at := none
    completed_at := none }

/-- A stored task record missing the required `title` key. -/
def noTitleRawTask : RawTask :=
  { title := none
    description := none
    due_date := none
    priority := none
    category := none
    status := none
    created_at := none
    updated_at := none
    completed_at := none }

/-- A one-task manager state. -/
def sampleManager : TaskManager := { tasks := [rtTask], changelog := { changes := [] } }

/-- A two-entry change log with timestamps 3 and 9. -/
def sampleLog : ChangeLog :=
  { changes :=
      [{ action := "CREATE", task_data := ChangeData.snapshot rtTask.to_dict, timestamp := 3 },
       { action := "DELETE", task_data := ChangeData.snapshot rtTask.to_dict, timestamp := 9 }] }

/-- The filter selecting completed tasks only. -/
def completedFilter : TaskFilter :=
  { status := some TaskStatus.COMPLETED
    priority := none
    category := none
    overdue_only := false
    due_in_days := none }

/-! ## Helper lemmas -/

/-- `Priority[p.name]` recovers `p`. -/
theorem priority_fromName_name (p : Priority) : Priority.fromName p.name = some p := by
  cases p <;> rfl

/-- `TaskStatus[s.name]` recovers `s`. -/
theorem status_fromName_name (s : TaskStatus) : TaskStatus.fromName s.name = some s := by
  cases s <;> rfl

/-- A keyword argument that is not a `created_at` assignment leaves
`created_at` unchanged. -/
theorem Task.created_at_setattr (t : Task) (a : FieldAssign) (h : a.isCreatedAt = false) :
    (t.setattr a).created_at = t.created_at := by
  cases a <;> simp_all [Task.setattr, FieldAssign.isCreatedAt]

/-- Folding keyword arguments none of which assigns `created_at`
leaves `created_at` unchanged. -/
theorem Task.created_at_foldl_setattr (kwargs : List FieldAssign) (t : Task)
    (h : kwargs.all (fun a => !a.isCreatedAt) = true) :
    (kwargs.foldl Task.setattr t).created_at = t.created_at := by
  induction kwargs generalizing t with
  | nil => rfl
  | cons a rest ih =>
    simp only [List.all_cons, Bool.and_eq_true, Bool.not_eq_true'] at h
    simp only [List.foldl_cons]
    rw [ih (t.setattr a) (by simp [h.2]), Task.created_at_setattr t a h.1]

/-- Keyword arguments naming no attribute leave the task unchanged. -/
theorem Task.foldl_setattr_unknown (kwargs : List FieldAssign) (t : Task)
    (h : kwargs.all FieldAssign.isUnknown = true) :
    kwargs.foldl Task.setattr t = t := by
  induction kwargs generalizing t with
  | nil => rfl
  | cons a rest ih =>
    simp only [List.all_cons, Bool.and_eq_true] at h
    cases a <;> simp_all [FieldAssign.isUnknown, List.foldl_cons, Task.setattr]

/-! ## Claims -/

/-- C4: `is_overdue()` is true iff the due date is set, lies strictly
before the current time, and the status is not `COMPLETED`; after
`mark_as_completed` the status is `COMPLETED`, `completed_at` is
non-null, and `is_overdue` at any later query is false. -/
theorem c4_overdue_iff_and_completed (t : Task) (now now2 : Nat) :
    (t.is_overdue now = true ↔
      ∃ d, t.due_date = some d ∧ d < now ∧ t.status ≠ TaskStatus.COMPLETED) ∧
    (t.mark_as_completed now).status = TaskStatus.COMPLETED ∧
    (t.mark_as_completed now).completed_at = some now ∧
    (t.mark_as_completed now).is_overdue now2 = false := by
  refine ⟨?_, rfl, rfl, ?_⟩
  · cases hd : t.due_date with
    | none => simp [Task.is_overdue, hd]
    | some d => simp [Task.is_overdue, hd]
  · cases hd : t.due_date with
    | none => simp [Task.is_overdue, Task.mark_as_completed, hd]
    | some d => simp [Task.is_overdue, Task.mark_as_completed, hd]

/-- C4 witness: a pending task due at time 0 is overdue at time 10, and
completing it at time 10 makes a later `is_overdue` false. -/
theorem c4_witness :
    (Task.init "a" "" (some 0) Priority.LOW "G" 5).is_overdue 10 = true ∧
    ((Task.init "a" "" (some 0) Priority.LOW "G" 5).mark_as_completed 10).is_overdue 20 = false := by
  have h := c4_overdue_iff_and_completed (Task.init "a" "" (some 0) Priority.LOW "G" 5) 10 20
  exact ⟨h.1.mpr ⟨0, rfl, by decide, by decide⟩, h.2.2.2⟩

/-- C6: `update_task` on an id outside `[0, length)` returns the
`None` sentinel, appends nothing to the change log, does not rewrite
storage, notifies nobody and leaves the whole manager state unchanged. -/
theorem c6_update_task_out_of_range (m : TaskManager) (task_id : Int)
    (kwargs : List FieldAssign) (now : Nat)
    (h : ¬(0 ≤ task_id ∧ task_id < (m.tasks.length : Int))) :
    m.update_task task_id kwargs now =
      { manager := m, saved := false, notified := none, result := none } := by
  rw [TaskManager.update_task, dif_neg h]

/-- C6 witness: updating task 5 of a one-task manager changes nothing. -/
theorem c6_witness :
    sampleManager.update_task 5 [] 7 =
      { manager := sampleManager, saved := false, notified := none, result := none } :=
  c6_update_task_out_of_range sampleManager 5 [] 7 (by decide)

/-- C8: `get_changes_since t` is exactly the sublist of entries whose
timestamp is at least `t`, kept in insertion order; being a pure
function of the log, repeated calls return the same list and the log is
not consumed or mutated. -/
theorem c8_changes_since (log : ChangeLog) (since : Nat) :
    log.get_changes_since since =
      log.changes.filter (fun change => decide (since ≤ change.timestamp)) ∧
    (log.get_changes_since since).Sublist log.changes ∧
    (∀ c, c ∈ log.get_changes_since since ↔ c ∈ log.changes ∧ since ≤ c.timestamp) := by
  refine ⟨rfl, List.filter_sublist _, fun c => ?_⟩
  simp [ChangeLog.get_changes_since, List.mem_filter]

/-- C8 witness: on the two-entry sample log only the entry at time 9
is at least 5. -/
theorem c8_witness :
    sampleLog.get_changes_since 5 =
      sampleLog.changes.filter (fun change => decide (5 ≤ change.timestamp)) ∧
    (sampleLog.get_changes_since 5).Sublist sampleLog.changes :=
  ⟨(c8_changes_since sampleLog 5).1, (c8_changes_since sampleLog 5).2.1⟩

/-- The five successive comprehensions of `apply` compute the filter
of the conjunction `matchesSpec`. -/
theorem TaskFilter.apply_eq_filter (f : TaskFilter) (tasks : List Task) (now : Nat) :
    f.apply tasks now = tasks.filter (fun t => f.matchesSpec t now) := by
  unfold TaskFilter.apply TaskFilter.matchesSpec
  cases f.status <;> cases f.priority <;> cases f.category <;>
    cases hb : f.overdue_only <;> cases f.due_in_days <;>
      simp [List.filter_filter] <;>
      exact List.filter_congr (fun t _ => by
        simp [Bool.and_comm, Bool.and_left_comm, Bool.and_assoc])

/-- C5: `apply` returns the order-preserving subsequence of tasks
satisfying the conjunction of the set predicates (unset ones impose no
constraint); the `due_in_days = N` predicate requires a due date with
`0 ≤ days_until_due ≤ N`; and when no status filter is set, a task's
passing the filter is unchanged by its status being `DELETED` rather
than `PENDING`. -/
theorem c5_filter_conjunction (f : TaskFilter) (tasks : List Task) (now : Nat) :
    f.apply tasks now = tasks.filter (fun t => f.matchesSpec t now) ∧
    (f.apply tasks now).Sublist tasks ∧
    (∀ t : Task, t ∈ f.apply tasks now ↔ t ∈ tasks ∧ f.matchesSpec t now = true) ∧
    (f.status = none → ∀ t : Task,
      f.matchesSpec { t with status := TaskStatus.DELETED } now =
        f.matchesSpec { t with status := TaskStatus.PENDING } now) := by
  refine ⟨TaskFilter.apply_eq_filter f tasks now, ?_, fun t => ?_, fun hs t => ?_⟩
  · rw [TaskFilter.apply_eq_filter]
    exact List.filter_sublist _
  · rw [TaskFilter.apply_eq_filter]
    simp [List.mem_filter]
  · unfold TaskFilter.matchesSpec
    rw [hs]
    cases hd : t.due_date <;>
      simp [Task.is_overdue, Task.days_until_due, hd]

/-- C5 witness: on a pending and a completed task, the
completed-status filter selects exactly the completed one. -/
theorem c5_witness :
    completedFilter.apply [rtTask, rtTask2] 10 = [rtTask2] := by
  rw [(c5_filter_conjunction completedFilter [rtTask, rtTask2] 10).1]
  rfl

/-- C9: for an in-range id, `delete_task` only flips the status to
`DELETED` — in particular `updated_at` is not refreshed and every other
field is unchanged — while `update_task`, `complete_task` and
`archive_task` all set the stored task's `updated_at` to the operation
time. -/
theorem c9_delete_frame (m : TaskManager) (task_id : Int) (kwargs : List FieldAssign)
    (now : Nat) (old : Task)
    (h : 0 ≤ task_id ∧ task_id < (m.tasks.length : Int))
    (hold : m.tasks[task_id.toNat]? = some old) :
    (m.delete_task task_id now).manager.tasks[task_id.toNat]? =
      some { old with status := TaskStatus.DELETED } ∧
    ((m.update_task task_id kwargs now).manager.tasks[task_id.toNat]?.map Task.updated_at =
      some now) ∧
    ((m.complete_task task_id now).manager.tasks[task_id.toNat]?.map Task.updated_at =
      some now) ∧
    ((m.archive_task task_id now).manager.tasks[task_id.toNat]?.map Task.updated_at =
      some now) := by
  have hi : task_id.toNat < m.tasks.length := by omega
  have hval : m.tasks[task_id.toNat] = old := by
    rw [List.getElem?_eq_getElem hi] at hold
    exact Option.some.inj hold
  refine ⟨?_, ?_, ?_, ?_⟩
  · rw [TaskManager.delete_task, dif_pos h]
    simp only [List.get_eq_getElem, hval]
    exact List.getElem?_set_eq_of_lt _ hi
  · rw [TaskManager.update_task, dif_pos h]
    simp only [List.get_eq_getElem, hval]
    rw [List.getElem?_set_eq_of_lt _ hi]
    simp [Task.update]
  · rw [TaskManager.complete_task, dif_pos h]
    simp only [List.get_eq_getElem, hval]
    rw [List.getElem?_set_eq_of_lt _ hi]
    simp [Task.mark_as_completed]
  · rw [TaskManager.archive_task, dif_pos h]
    simp only [List.get_eq_getElem, hval]
    rw [List.getElem?_set_eq_of_lt _ hi]
    simp [Task.archive]

/-- C9 witness: deleting task 0 of the sample manager at time 4 keeps
its `updated_at` at 0 while only the status changes; completing it
instead sets `updated_at` to 4. -/
theorem c9_witness :
    (sampleManager.delete_task 0 4).manager.tasks[(0 : Int).toNat]? =
      some { rtTask with status := TaskStatus.DELETED } ∧
    ((sampleManager.complete_task 0 4).manager.tasks[(0 : Int).toNat]?.map Task.updated_at =
      some 4) := by
  have hh := c9_delete_frame sampleManager 0 [] 4 rtTask (by decide) (by rfl)
  exact ⟨hh.1, hh.2.2.1⟩

/-- C7: for an in-range id, `archive_task` sets the task's status to
`ARCHIVED`, appends an `ARCHIVE` changelog entry, persists, and sends
no notification, while `add_task`, `update_task`, `delete_task` and
`complete_task` all send one. -/
theorem c7_archive_no_notification (m : TaskManager) (task_id : Int) (now : Nat)
    (task : Task) (kwargs : List FieldAssign)
    (h : 0 ≤ task_id ∧ task_id < (m.tasks.length : Int)) :
    ((m.archive_task task_id now).manager.tasks[task_id.toNat]?.map Task.status =
      some TaskStatus.ARCHIVED) ∧
    (m.archive_task task_id now).manager.changelog.changes.length =
      m.changelog.changes.length + 1 ∧
    ((m.archive_task task_id now).manager.changelog.changes.getLast?.map ChangeEntry.action =
      some "ARCHIVE") ∧
    (m.archive_task task_id now).saved = true ∧
    (m.archive_task task_id now).notified = none ∧
    (m.add_task task now).notified.isSome = true ∧
    (m.update_task task_id kwargs now).notified.isSome = true ∧
    (m.delete_task task_id now).notified.isSome = true ∧
    (m.complete_task task_id now).notified.isSome = true := by
  have hi : task_id.toNat < m.tasks.length := by omega
  refine ⟨?_, ?_, ?_, ?_, ?_, ?_, ?_, ?_, ?_⟩
  · rw [TaskManager.archive_task, dif_pos h]
    simp only []
    rw [List.getElem?_set_eq_of_lt _ hi]
    simp [Task.archive]
  · rw [TaskManager.archive_task, dif_pos h]
    simp [ChangeLog.add_change]
  · rw [TaskManager.archive_task, dif_pos h]
    simp [ChangeLog.add_change, List.getLast?_concat]
  · rw [TaskManager.archive_task, dif_pos h]
  · rw [TaskManager.archive_task, dif_pos h]
  · rfl
  · rw [TaskManager.update_task, dif_pos h]
    rfl
  · rw [TaskManager.delete_task, dif_pos h]
    rfl
  · rw [TaskManager.complete_task, dif_pos h]
    rfl

/-- C7 witness: archiving task 0 of the sample manager logs an ARCHIVE
entry and notifies nobody, while completing it notifies. -/
theorem c7_witness :
    (sampleManager.archive_task 0 6).notified = none ∧
    ((sampleManager.archive_task 0 6).manager.changelog.changes.getLast?.map
      ChangeEntry.action = some "ARCHIVE") ∧
    (sampleManager.complete_task 0 6).notified.isSome = true := by
  have hh := c7_archive_no_notification sampleManager 0 6 rtTask [] (by decide)
  exact ⟨hh.2.2.2.2.1, hh.2.2.1, hh.2.2.2.2.2.2.2.2⟩

/-- C10: for an in-range id, `update_task` appends exactly one UPDATE
changelog entry, persists and notifies even when the supplied keyword
arguments name no attribute at all (in particular when empty), in
which case the stored task changes only in `updated_at`. -/
theorem c10_update_task_logs (m : TaskManager) (task_id : Int) (kwargs : List FieldAssign)
    (now : Nat) (old : Task)
    (h : 0 ≤ task_id ∧ task_id < (m.tasks.length : Int))
    (hold : m.tasks[task_id.toNat]? = some old)
    (hk : kwargs.all FieldAssign.isUnknown = true) :
    (m.update_task task_id kwargs now).manager.changelog.changes.length =
      m.changelog.changes.length + 1 ∧
    ((m.update_task task_id kwargs now).manager.changelog.changes.getLast?.map
      ChangeEntry.action = some "UPDATE") ∧
    (m.update_task task_id kwargs now).saved = true ∧
    (m.update_task task_id kwargs now).notified.isSome = true ∧
    (m.update_task task_id kwargs now).manager.tasks[task_id.toNat]? =
      some { old with updated_at := now } := by
  have hi : task_id.toNat < m.tasks.length := by omega
  have hval : m.tasks[task_id.toNat] = old := by
    rw [List.getElem?_eq_getElem hi] at hold
    exact Option.some.inj hold
  refine ⟨?_, ?_, ?_, ?_, ?_⟩
  · rw [TaskManager.update_task, dif_pos h]
    simp [ChangeLog.add_change]
  · rw [TaskManager.update_task, dif_pos h]
    simp [ChangeLog.add_change, List.getLast?_concat]
  · rw [TaskManager.update_task, dif_pos h]
  · rw [TaskManager.update_task, dif_pos h]
    rfl
  · rw [TaskManager.update_task, dif_pos h]
    simp only [List.get_eq_getElem, hval]
    rw [List.getElem?_set_eq_of_lt _ hi]
    rw [Task.update, Task.foldl_setattr_unknown kwargs old hk]

/-- C10 witness: updating task 0 of the sample manager with one
unknown field name still logs an UPDATE entry, persists, notifies, and
only bumps `updated_at`. -/
theorem c10_witness :
    (sampleManager.update_task 0 [FieldAssign.unknownField "nope"] 8).manager.changelog.changes.length =
      sampleManager.changelog.changes.length + 1 ∧
    (sampleManager.update_task 0 [FieldAssign.unknownField "nope"] 8).manager.tasks[(0 : Int).toNat]? =
      some { rtTask with updated_at := 8 } := by
  have hh := c10_update_task_logs sampleManager 0 [FieldAssign.unknownField "nope"] 8 rtTask
    (by decide) (by rfl) (by decide)
  exact ⟨hh.1, hh.2.2.2.2⟩

/-- Invariant preserved by the mutation operations: `created_at` keeps
its construction value and `updated_at` never drops below it, provided
no `update` assigns `created_at` and every operation happens no
earlier than `c`. -/
theorem Task.applyOps_invariant (ops : List (TaskOp × Nat)) (t : Task) (c : Nat)
    (ht1 : t.created_at = c) (ht2 : c ≤ t.updated_at)
    (htimes : ∀ p ∈ ops, c ≤ p.2)
    (hops : ∀ p ∈ ops, p.1.noCreatedAtAssign = true) :
    (t.applyOps ops).created_at = c ∧ c ≤ (t.applyOps ops).updated_at := by
  induction ops generalizing t with
  | nil => exact ⟨ht1, ht2⟩
  | cons p rest ih =>
    obtain ⟨op, n⟩ := p
    have hn : c ≤ n := htimes (op, n) (List.mem_cons_self _ _)
    have hop : op.noCreatedAtAssign = true := hops (op, n) (List.mem_cons_self _ _)
    have hrt : ∀ q ∈ rest, c ≤ q.2 := fun q hq => htimes q (List.mem_cons_of_mem _ hq)
    have hro : ∀ q ∈ rest, q.1.noCreatedAtAssign = true :=
      fun q hq => hops q (List.mem_cons_of_mem _ hq)
    show ((t.applyOp (op, n)).applyOps rest).created_at = c ∧
      c ≤ ((t.applyOp (op, n)).applyOps rest).updated_at
    cases op with
    | update kwargs =>
      refine ih (t.update kwargs n) ?_ ?_ hrt hro
      · rw [Task.update]
        simp only []
        rw [Task.created_at_foldl_setattr kwargs t
          (by simpa [TaskOp.noCreatedAtAssign] using hop), ht1]
      · rw [Task.update]
        exact hn
    | mark_as_completed => exact ih (t.mark_as_completed n) ht1 hn hrt hro
    | archive => exact ih (t.archive n) ht1 hn hrt hro
    | managerDelete => exact ih { t with status := TaskStatus.DELETED } ht1 ht2 hrt hro

/-- C2 (amended): for a task constructed at time `c`, after any
sequence of mutations (update with arbitrary field names other than
`created_at`, mark_as_completed, archive, and the manager's delete) at
times no earlier than `c`, the invariant `created_at ≤ updated_at`
holds. -/
theorem c2_created_le_updated (title description : String) (due_date : Option Nat)
    (priority : Priority) (category : String) (c : Nat) (ops : List (TaskOp × Nat))
    (htimes : ∀ p ∈ ops, c ≤ p.2)
    (hops : ∀ p ∈ ops, p.1.noCreatedAtAssign = true) :
    ((Task.init title description due_date priority category c).applyOps ops).created_at ≤
      ((Task.init title description due_date priority category c).applyOps ops).updated_at := by
  have hh := Task.applyOps_invariant ops
    (Task.init title description due_date priority category c) c rfl (le_refl c) htimes hops
  omega

/-- C2 counterexample: `update` accepts `created_at` like any other
known attribute, so updating with `created_at := 5` at time 1 leaves a
task created at time 0 with `created_at = 5 > 1 = updated_at`. -/
theorem c2_counterexample :
    ¬ (((Task.init "a" "" none Priority.MEDIUM "General" 0).applyOps
          [(TaskOp.update [FieldAssign.created_at 5], 1)]).created_at ≤
        ((Task.init "a" "" none Priority.MEDIUM "General" 0).applyOps
          [(TaskOp.update [FieldAssign.created_at 5], 1)]).updated_at) := by
  decide

/-- C2 witness: a concrete trace — complete at time 3, then retitle at
time 5 — keeps `created_at ≤ updated_at`. -/
theorem c2_witness :
    ((Task.init "a" "" none Priority.MEDIUM "General" 2).applyOps
        [(TaskOp.mark_as_completed, 3), (TaskOp.update [FieldAssign.title "b"], 5)]).created_at ≤
      ((Task.init "a" "" none Priority.MEDIUM "General" 2).applyOps
        [(TaskOp.mark_as_completed, 3), (TaskOp.update [FieldAssign.title "b"], 5)]).updated_at :=
  c2_created_le_updated "a" "" none Priority.MEDIUM "General" 2
    [(TaskOp.mark_as_completed, 3), (TaskOp.update [FieldAssign.title "b"], 5)]
    (by decide) (by decide)

/-- C3 (amended): serialising a task and deserialising the record
yields a structurally equal task — including null `due_date` and
`completed_at` — provided the due date, when set, has no time-of-day
component and the timestamps have no sub-second component (the wire
format keeps only the calendar date of `due_date` and whole seconds of
the timestamps). -/
theorem c3_round_trip (t : Task)
    (hdue : ∀ d, t.due_date = some d → d % usPerDay = 0)
    (hcr : t.created_at % usPerSec = 0)
    (hup : t.updated_at % usPerSec = 0)
    (hcomp : ∀ u, t.completed_at = some u → u % usPerSec = 0) :
    Task.from_dict t.to_dict = Except.ok t := by
  obtain ⟨title, description, due_date, priority, category, status, created_at,
    updated_at, completed_at⟩ := t
  have ecr : created_at / usPerSec * usPerSec = created_at :=
    Nat.div_mul_cancel (Nat.dvd_of_mod_eq_zero hcr)
  have eup : updated_at / usPerSec * usPerSec = updated_at :=
    Nat.div_mul_cancel (Nat.dvd_of_mod_eq_zero hup)
  cases due_date with
  | none =>
    cases completed_at with
    | none =>
      simp [Task.from_dict, Task.to_dict, truthy, fmtDate, fmtDateTime, strptimeDate,
        strptimeDateTime, priority_fromName_name, status_fromName_name,
        Except.bind, ecr, eup]
      all_goals rfl
    | some u =>
      have eu : u / usPerSec * usPerSec = u :=
        Nat.div_mul_cancel (Nat.dvd_of_mod_eq_zero (hcomp u rfl))
      simp [Task.from_dict, Task.to_dict, truthy, fmtDate, fmtDateTime, strptimeDate,
        strptimeDateTime, priority_fromName_name, status_fromName_name,
        Except.bind, ecr, eup, eu]
      all_goals rfl
  | some d =>
    have ed : d / usPerDay * usPerDay = d :=
      Nat.div_mul_cancel (Nat.dvd_of_mod_eq_zero (hdue d rfl))
    cases completed_at with
    | none =>
      simp [Task.from_dict, Task.to_dict, truthy, fmtDate, fmtDateTime, strptimeDate,
        strptimeDateTime, priority_fromName_name, status_fromName_name,
        Except.bind, ecr, eup, ed]
      all_goals rfl
    | some u =>
      have eu : u / usPerSec * usPerSec = u :=
        Nat.div_mul_cancel (Nat.dvd_of_mod_eq_zero (hcomp u rfl))
      simp [Task.from_dict, Task.to_dict, truthy, fmtDate, fmtDateTime, strptimeDate,
        strptimeDateTime, priority_fromName_name, status_fromName_name,
        Except.bind, ecr, eup, ed, eu]
      all_goals rfl

/-- C3 counterexample: a task whose due date is 1:00:00 into day 0
does not survive the round trip — the wire format stores only
`"%Y-%m-%d"`, so the due date comes back as midnight. -/
theorem c3_counterexample :
    Task.from_dict oddDueTask.to_dict ≠ Except.ok oddDueTask := by
  intro hcontra
  rw [show Task.from_dict oddDueTask.to_dict =
      Except.ok { oddDueTask with due_date := some 0 } from rfl] at hcontra
  have h2 := Except.ok.inj hcontra
  have h3 : (some 0 : Option Nat) = some 3600000000 := congrArg Task.due_date h2
  exact absurd (Option.some.inj h3) (by decide)

/-- C3 witness: the round trip is the identity on a task with a
midnight due date, whole-second timestamps, and non-null
`completed_at`. -/
theorem c3_witness : Task.from_dict rtTask2.to_dict = Except.ok rtTask2 :=
  c3_round_trip rtTask2
    (fun d hd => by
      have hd2 : d = 2 * usPerDay := by
        have := Option.some.inj hd.symm
        omega
      rw [hd2]
      decide)
    (by decide) (by decide)
    (fun u hu => by
      have hu2 : u = 5 * usPerSec := by
        have := Option.some.inj hu.symm
        omega
      rw [hu2]
      decide)

/-- `bind` of a successful `Except` computation. -/
theorem bind_ok {α β : Type} (a : α) (f : α → Except PyError β) :
    (Except.ok a : Except PyError α) >>= f = f a := rfl

/-- `bind` of a failed `Except` computation. -/
theorem bind_error {α β : Type} (e : PyError) (f : α → Except PyError β) :
    (Except.error e : Except PyError α) >>= f = Except.error e := rfl

/-- Decomposition of a successful parse of a document: both sections
parsed completely, in order. -/
theorem TaskManager.load_parse_ok (tasksData : Option (List RawTask))
    (changelogData : Option (List RawEntry)) (tasks : List Task) (changelog : ChangeLog)
    (h : TaskManager.load_parse tasksData changelogData = Except.ok (tasks, changelog)) :
    mapMExcept Task.from_dict (tasksData.getD []) = Except.ok tasks ∧
    ChangeLog.from_dict (changelogData.getD []) = Except.ok changelog := by
  rw [TaskManager.load_parse] at h
  cases h1 : mapMExcept Task.from_dict (tasksData.getD []) with
  | error e =>
    rw [h1, bind_error] at h
    exact absurd h (by simp)
  | ok ts2 =>
    rw [h1, bind_ok] at h
    cases h2 : ChangeLog.from_dict (changelogData.getD []) with
    | error e =>
      rw [h2, bind_error] at h
      exact absurd h (by simp)
    | ok cl2 =>
      rw [h2, bind_ok] at h
      injection h with h3
      injection h3 with h4 h5
      rw [h4, h5]
      exact ⟨rfl, rfl⟩

/-- C1 (amended): loading never lets `KeyError` escape and recovers
from malformed JSON and missing keys / unknown enum names by resetting
to the exactly-empty state with a diagnostic; a successful quiet load
is the complete parse of both sections (never partial); but the only
error that can escape — `ValueError` from a bad date string — does
escape instead of falling back. -/
theorem c1_load_recovery (file : FileState) :
    (∀ e, TaskManager.load_data file = Except.error e → e = PyError.valueError) ∧
    (∀ st, TaskManager.load_data file = Except.ok (st, true) →
      st = { tasks := [], changelog := { changes := [] } }) ∧
    (∀ tasksData changelogData st diag,
      file = FileState.doc tasksData changelogData →
      TaskManager.load_data file = Except.ok (st, diag) → diag = false →
      mapMExcept Task.from_dict (tasksData.getD []) = Except.ok st.tasks ∧
      ChangeLog.from_dict (changelogData.getD []) = Except.ok st.changelog) := by
  cases file with
  | absent =>
    refine ⟨fun e he => ?_, fun st hst => ?_, fun tasksData changelogData st diag hdoc => ?_⟩
    · exact absurd he (by simp [TaskManager.load_data])
    · rw [TaskManager.load_data] at hst
      injection hst with h3
      injection h3 with h4 h5
      exact absurd h5 (by decide)
    · exact absurd hdoc (by simp)
  | malformedJson =>
    refine ⟨fun e he => ?_, fun st hst => ?_, fun tasksData changelogData st diag hdoc => ?_⟩
    · exact absurd he (by simp [TaskManager.load_data])
    · rw [TaskManager.load_data] at hst
      injection hst with h3
      injection h3 with h4 h5
      exact h4.symm
    · exact absurd hdoc (by simp)
  | doc tasksData changelogData =>
    refine ⟨fun e he => ?_, fun st hst => ?_,
      fun tasksData2 changelogData2 st diag hdoc hload hdiag => ?_⟩
    · rw [TaskManager.load_data] at he
      cases hp : TaskManager.load_parse tasksData changelogData with
      | ok pair =>
        obtain ⟨ts, cl⟩ := pair
        rw [hp] at he
        exact absurd he (by simp)
      | error e1 =>
        cases e1 with
        | keyError =>
          rw [hp] at he
          exact absurd he (by simp)
        | valueError =>
          rw [hp] at he
          injection he with h3
          exact h3.symm
    · rw [TaskManager.load_data] at hst
      cases hp : TaskManager.load_parse tasksData changelogData with
      | ok pair =>
        obtain ⟨ts, cl⟩ := pair
        rw [hp] at hst
        injection hst with h3
        injection h3 with h4 h5
        exact absurd h5 (by decide)
      | error e1 =>
        cases e1 with
        | keyError =>
          rw [hp] at hst
          injection hst with h3
          injection h3 with h4 h5
          exact h4.symm
        | valueError =>
          rw [hp] at hst
          exact absurd hst (by simp)
    · cases hdoc
      rw [TaskManager.load_data] at hload
      cases hp : TaskManager.load_parse tasksData changelogData with
      | ok pair =>
        obtain ⟨ts, cl⟩ := pair
        rw [hp] at hload
        injection hload with h3
        injection h3 with h4 h5
        subst h4
        exact TaskManager.load_parse_ok tasksData changelogData ts cl hp
      | error e1 =>
        cases e1 with
        | keyError =>
          rw [hp] at hload
          injection hload with h3
          injection h3 with h4 h5
          rw [hdiag] at h5
          exact absurd h5 (by decide)
        | valueError =>
          rw [hp] at hload
          exact absurd hload (by simp)

/-- C1 counterexample: a storage file whose single task record carries
a bad `created_at` date string makes `load_data` raise `ValueError`
instead of falling back to the empty state. -/
theorem c1_counterexample :
    TaskManager.load_data (FileState.doc (some [badRawTask]) none) =
      Except.error PyError.valueError := by
  rfl

/-- C1 witness: a record missing its required `title` key is a
`KeyError`, which is caught — the load falls back to the empty state
with a diagnostic. -/
theorem c1_witness :
    TaskManager.load_data (FileState.doc (some [noTitleRawTask]) none) =
      Except.ok ({ tasks := [], changelog := { changes := [] } }, true) ∧
    ({ tasks := [], changelog := { changes := [] } } : TaskManager) =
      { tasks := [], changelog := { changes := [] } } :=
  ⟨by rfl,
    (c1_load_recovery (FileState.doc (some [noTitleRawTask]) none)).2.1
      { tasks := [], changelog := { changes := [] } } (by rfl)⟩

end TaskMgr
